import Mathlib

/-!
Verification of the OXRS-IO-WT32-ESP32-LIB core against its specification.
The JSON tree model and the operations below are shallow embeddings of the
functions in `src/OXRS_WT32.cpp`.
-/

set_option autoImplicit false
set_option maxRecDepth 8192

namespace OXRS

/-- JSON tree, modelling the ArduinoJson `JsonVariant` node shapes: null,
booleans, numbers, strings, arrays and objects (ordered member lists). -/
inductive Json where
  | null : Json
  | bool (b : Bool) : Json
  | num (n : Int) : Json
  | str (s : String) : Json
  | arr (items : List Json) : Json
  | obj (fields : List (String × Json)) : Json

/-- Read the member with key `k`; absent members read as null (the value a
freshly added member holds after `getOrAddMember`). -/
def getSlot : List (String × Json) → String → Json
  | [], _ => Json.null
  | (k', v') :: rest, k => if k' = k then v' else getSlot rest k

/-- Replace the member with key `k` in place, appending it when absent
(ArduinoJson `getOrAddMember` placement). -/
def setSlot : List (String × Json) → String → Json → List (String × Json)
  | [], k, v => [(k, v)]
  | (k', v') :: rest, k, v =>
      if k' = k then (k', v) :: rest else (k', v') :: setSlot rest k v

/-- Whether a key occurs in a key list. -/
def containsKey : List String → String → Bool
  | [], _ => false
  | k' :: rest, k => k' = k || containsKey rest k

mutual

/-- Embedding of `_mergeJson(dst, src)` (OXRS_WT32.cpp lines 50-63): if the
source is an object, recurse per key through `dst.getOrAddMember`; promotion
of a null destination to an object happens only inside `getOrAddMember`,
which runs once per source key, so a null destination stays null when the
source object has no keys; a non-object destination is left unchanged
because `getOrAddMember` fails on it; any other source is set wholesale. -/
def mergeJson (dst src : Json) : Json :=
  match src with
  | Json.obj sfields =>
    match dst with
    | Json.null =>
      match sfields with
      | [] => Json.null
      | (k, v) :: rest => Json.obj (mergeFields [] ((k, v) :: rest))
    | Json.obj dfields => Json.obj (mergeFields dfields sfields)
    | other => other
  | s => s

/-- The per-key loop of `_mergeJson` over the source object's members. -/
def mergeFields (d : List (String × Json)) (s : List (String × Json)) :
    List (String × Json) :=
  match s with
  | [] => d
  | (k, v) :: rest => mergeFields (setSlot d k (mergeJson (getSlot d k) v)) rest

end

/-- Whether a node is an object. -/
def Json.isObj : Json → Bool
  | Json.obj _ => true
  | _ => false

/-- Keys pairwise distinct. -/
def keysNodup : List String → Bool
  | [] => true
  | k :: rest => !(containsKey rest k) && keysNodup rest

mutual

/-- Well-formed JSON tree: member keys unique at every object level, as the
data model requires ("keys unique per object level"). -/
def Json.wf : Json → Bool
  | Json.obj fields => keysNodup (fields.map Prod.fst) && fieldsWf fields
  | Json.arr items => itemsWf items
  | _ => true

/-- All member values well-formed. -/
def fieldsWf : List (String × Json) → Bool
  | [] => true
  | (_, v) :: rest => v.wf && fieldsWf rest

/-- All array elements well-formed. -/
def itemsWf : List Json → Bool
  | [] => true
  | v :: rest => v.wf && itemsWf rest

end

/- Equation lemmas for the mutual definitions. -/

theorem mergeFields_nil (d : List (String × Json)) : mergeFields d [] = d := rfl

theorem mergeFields_cons (d : List (String × Json)) (k : String) (v : Json)
    (rest : List (String × Json)) :
    mergeFields d ((k, v) :: rest) =
      mergeFields (setSlot d k (mergeJson (getSlot d k) v)) rest := rfl

theorem mergeJson_null_obj_nil : mergeJson Json.null (Json.obj []) = Json.null := rfl

theorem mergeJson_null_obj_cons (k : String) (v : Json) (rest : List (String × Json)) :
    mergeJson Json.null (Json.obj ((k, v) :: rest)) =
      Json.obj (mergeFields [] ((k, v) :: rest)) := rfl

theorem mergeJson_obj_obj (d s : List (String × Json)) :
    mergeJson (Json.obj d) (Json.obj s) = Json.obj (mergeFields d s) := rfl

theorem mergeJson_src_not_obj (dst src : Json) (h : src.isObj = false) :
    mergeJson dst src = src := by
  cases src <;> first | rfl | simp [Json.isObj] at h

theorem mergeJson_dst_other_obj (dst : Json) (s : List (String × Json))
    (h : dst.isObj = false) (hn : dst ≠ Json.null) :
    mergeJson dst (Json.obj s) = dst := by
  cases dst with
  | null => exact absurd rfl hn
  | obj d => simp [Json.isObj] at h
  | bool b => rfl
  | num n => rfl
  | str t => rfl
  | arr l => rfl

/- Lemmas about single-slot access and update. -/

theorem getSlot_setSlot_same (d : List (String × Json)) (k : String) (v : Json) :
    getSlot (setSlot d k v) k = v := by
  induction d with
  | nil => simp [getSlot, setSlot]
  | cons p rest ih =>
      obtain ⟨k', v'⟩ := p
      by_cases h : k' = k <;> simp [getSlot, setSlot, h, ih]

theorem getSlot_setSlot_other (d : List (String × Json)) (k k' : String) (v : Json)
    (h : k ≠ k') : getSlot (setSlot d k v) k' = getSlot d k' := by
  induction d with
  | nil => simp [getSlot, setSlot, h]
  | cons p rest ih =>
      obtain ⟨k'', v''⟩ := p
      by_cases h2 : k'' = k
      · subst h2
        simp [getSlot, setSlot, h]
      · simp [getSlot, setSlot, h2, ih]

theorem setSlot_setSlot_same (d : List (String × Json)) (k : String) (v w : Json) :
    setSlot (setSlot d k v) k w = setSlot d k w := by
  induction d with
  | nil => simp [setSlot]
  | cons p rest ih =>
      obtain ⟨k', v'⟩ := p
      by_cases h : k' = k <;> simp [setSlot, h, ih]

theorem setSlot_comm (d : List (String × Json)) (k k' : String) (v w : Json)
    (h : k ≠ k') (hk : containsKey (d.map Prod.fst) k = true) :
    setSlot (setSlot d k v) k' w = setSlot (setSlot d k' w) k v := by
  induction d with
  | nil => simp [containsKey] at hk
  | cons p rest ih =>
      obtain ⟨k'', v''⟩ := p
      simp only [List.map, containsKey, Bool.or_eq_true, decide_eq_true_eq] at hk
      by_cases h2 : k'' = k
      · subst h2
        simp [setSlot, h, Ne.symm h]
      · by_cases h3 : k'' = k'
        · subst h3
          simp [setSlot, h2, Ne.symm h]
        · have hk' : containsKey (rest.map Prod.fst) k = true := by
            rcases hk with hk | hk
            · exact absurd hk h2
            · exact hk
          simp [setSlot, h2, h3, ih hk']

theorem containsKey_setSlot_self (d : List (String × Json)) (k : String) (v : Json) :
    containsKey ((setSlot d k v).map Prod.fst) k = true := by
  induction d with
  | nil => simp [setSlot, containsKey]
  | cons p rest ih =>
      obtain ⟨k', v'⟩ := p
      by_cases h : k' = k <;> simp [setSlot, containsKey, h, ih]

theorem containsKey_setSlot_mono (d : List (String × Json)) (k k' : String) (v : Json)
    (h : containsKey (d.map Prod.fst) k = true) :
    containsKey ((setSlot d k' v).map Prod.fst) k = true := by
  induction d with
  | nil => simp [containsKey] at h
  | cons p rest ih =>
      obtain ⟨k'', v''⟩ := p
      simp only [List.map, containsKey, Bool.or_eq_true, decide_eq_true_eq] at h
      by_cases h2 : k'' = k'
      · subst h2
        rcases h with h | h <;> simp [setSlot, containsKey, h]
      · rcases h with h | h
        · subst h
          simp [setSlot, containsKey, h2]
        · simp [setSlot, containsKey, h2, ih h]

/- Lemmas about the per-key merge loop. -/

theorem getSlot_mergeFields (s : List (String × Json)) (d : List (String × Json))
    (k : String) (h : containsKey (s.map Prod.fst) k = false) :
    getSlot (mergeFields d s) k = getSlot d k := by
  induction s generalizing d with
  | nil => rfl
  | cons p rest ih =>
      obtain ⟨k', v'⟩ := p
      simp only [List.map, containsKey, Bool.or_eq_false_iff, decide_eq_false_iff_not] at h
      rw [mergeFields_cons, ih _ h.2,
        getSlot_setSlot_other _ _ _ _ (fun hkk => h.1 hkk)]

theorem mergeFields_setSlot (s : List (String × Json)) (d : List (String × Json))
    (k : String) (w : Json) (hd : containsKey (d.map Prod.fst) k = true)
    (hs : containsKey (s.map Prod.fst) k = false) :
    mergeFields (setSlot d k w) s = setSlot (mergeFields d s) k w := by
  induction s generalizing d with
  | nil => rfl
  | cons p rest ih =>
      obtain ⟨k', v'⟩ := p
      simp only [List.map, containsKey, Bool.or_eq_false_iff, decide_eq_false_iff_not] at hs
      have hkk : k' ≠ k := hs.1
      rw [mergeFields_cons, mergeFields_cons,
        getSlot_setSlot_other _ _ _ _ (Ne.symm hkk),
        setSlot_comm _ _ _ _ _ (Ne.symm hkk) hd,
        ih _ (containsKey_setSlot_mono _ _ _ _ hd) hs.2]

/-- Running the per-key loop of `_mergeJson` twice over a duplicate-free
source object changes nothing the second time, provided each source member
value is itself idempotent as a merge source. -/
theorem mergeFields_idem (s : List (String × Json))
    (hnd : keysNodup (s.map Prod.fst) = true)
    (hval : ∀ p ∈ s, ∀ x, mergeJson (mergeJson x p.2) p.2 = mergeJson x p.2)
    (d : List (String × Json)) :
    mergeFields (mergeFields d s) s = mergeFields d s := by
  induction s generalizing d with
  | nil => rfl
  | cons p rest ih =>
      obtain ⟨k, v⟩ := p
      simp only [List.map, keysNodup, Bool.and_eq_true, Bool.not_eq_true',
        Bool.not_eq_true] at hnd
      have hval' := fun q hq => hval q (List.mem_cons_of_mem (k, v) hq)
      have hv := hval (k, v) (List.mem_cons_self (k, v) rest)
      rw [mergeFields_cons d]
      rw [mergeFields_cons]
      rw [getSlot_mergeFields rest _ k hnd.1]
      rw [getSlot_setSlot_same]
      rw [hv (getSlot d k)]
      rw [← mergeFields_setSlot rest _ k _ (containsKey_setSlot_self _ _ _) hnd.1]
      rw [setSlot_setSlot_same]
      exact ih hnd.2 hval' _

/-- Member values of a well-formed field list are well-formed. -/
theorem fieldsWf_mem (s : List (String × Json)) (h : fieldsWf s = true) :
    ∀ p ∈ s, p.2.wf = true := by
  induction s with
  | nil => intro p hp; cases hp
  | cons q rest ih =>
      obtain ⟨k, v⟩ := q
      simp only [fieldsWf, Bool.and_eq_true] at h
      intro p hp
      rcases List.mem_cons.mp hp with hp | hp
      · subst hp; exact h.1
      · exact ih h.2 p hp

/-- Merging the same well-formed source twice is the same as merging it once,
whatever the destination. -/
theorem merge_self_idem (v : Json) (hwf : v.wf = true) (x : Json) :
    mergeJson (mergeJson x v) v = mergeJson x v := by
  match v with
  | Json.null => rfl
  | Json.bool b => rfl
  | Json.num n => rfl
  | Json.str t => rfl
  | Json.arr l => rfl
  | Json.obj s =>
      simp only [Json.wf, Bool.and_eq_true] at hwf
      have hval : ∀ p ∈ s, ∀ y, mergeJson (mergeJson y p.2) p.2 = mergeJson y p.2 := by
        intro p hp y
        obtain ⟨k, w⟩ := p
        have hsz : sizeOf w < sizeOf s := by
          have h1 := List.sizeOf_lt_of_mem hp
          simp only [Prod.mk.sizeOf_spec] at h1
          omega
        exact merge_self_idem w (fieldsWf_mem s hwf.2 (k, w) hp) y
      match x with
      | Json.null =>
          cases s with
          | nil => rfl
          | cons p rest =>
              obtain ⟨k, w⟩ := p
              rw [mergeJson_null_obj_cons, mergeJson_obj_obj,
                mergeFields_idem ((k, w) :: rest) hwf.1 hval]
      | Json.obj d =>
          rw [mergeJson_obj_obj, mergeJson_obj_obj, mergeFields_idem s hwf.1 hval]
      | Json.bool b => rfl
      | Json.num n => rfl
      | Json.str t => rfl
      | Json.arr l => rfl
termination_by sizeOf v
decreasing_by
  simp_wf
  omega

/-- C1: the schema merge is idempotent: for every pair of JSON trees A and B
(object keys unique per level, as the data model's JsonTree requires),
merging B into A and then merging B again into the result yields the same
tree as merging B into A once. -/
theorem C1_merge_idempotent (A B : Json) (hB : B.wf = true) :
    mergeJson (mergeJson A B) B = mergeJson A B :=
  merge_self_idem B hB A

theorem C1_merge_idempotent_witness :
    (Json.obj [("a", Json.obj [("b", Json.num 1)])]).wf = true ∧
    mergeJson
        (mergeJson (Json.obj [("a", Json.obj [("b", Json.num 2), ("c", Json.num 3)])])
          (Json.obj [("a", Json.obj [("b", Json.num 1)])]))
        (Json.obj [("a", Json.obj [("b", Json.num 1)])]) =
      mergeJson (Json.obj [("a", Json.obj [("b", Json.num 2), ("c", Json.num 3)])])
        (Json.obj [("a", Json.obj [("b", Json.num 1)])]) :=
  ⟨rfl,
   C1_merge_idempotent (Json.obj [("a", Json.obj [("b", Json.num 2), ("c", Json.num 3)])])
     (Json.obj [("a", Json.obj [("b", Json.num 1)])]) rfl⟩

/-- C2: the merge policy: a non-object source overwrites the destination
wholesale; an object source recurses per key through get-or-create slots, so
destination keys absent from the source are preserved; merging
`{"x":[1,2]}` into `{"x":[9]}` gives `{"x":[1,2]}` and merging
`{"a":{"b":1}}` into `{"a":{"b":2,"c":3}}` gives `{"a":{"b":1,"c":3}}`. -/
theorem C2_merge_policy :
    (∀ dst src : Json, src.isObj = false → mergeJson dst src = src) ∧
    (∀ (d s : List (String × Json)),
        mergeJson (Json.obj d) (Json.obj s) = Json.obj (mergeFields d s)) ∧
    (∀ (d s : List (String × Json)) (k : String),
        containsKey (s.map Prod.fst) k = false →
        getSlot (mergeFields d s) k = getSlot d k) ∧
    mergeJson (Json.obj [("x", Json.arr [Json.num 9])])
        (Json.obj [("x", Json.arr [Json.num 1, Json.num 2])]) =
      Json.obj [("x", Json.arr [Json.num 1, Json.num 2])] ∧
    mergeJson (Json.obj [("a", Json.obj [("b", Json.num 2), ("c", Json.num 3)])])
        (Json.obj [("a", Json.obj [("b", Json.num 1)])]) =
      Json.obj [("a", Json.obj [("b", Json.num 1), ("c", Json.num 3)])] :=
  ⟨mergeJson_src_not_obj, mergeJson_obj_obj,
   fun d s k h => getSlot_mergeFields s d k h, rfl, rfl⟩

theorem C2_merge_policy_witness :
    mergeJson (Json.num 7) (Json.str "v") = Json.str "v" ∧
    getSlot (mergeFields [("kept", Json.num 1)] [("other", Json.num 2)]) "kept" =
      getSlot [("kept", Json.num 1)] "kept" :=
  ⟨C2_merge_policy.1 (Json.num 7) (Json.str "v") rfl,
   C2_merge_policy.2.2.1 [("kept", Json.num 1)] [("other", Json.num 2)] "kept"
     (by decide)⟩

/-- Embedding of `connectionState_t` (OXRS_WT32.h line 25). -/
inductive connectionState_t where
  | CONNECTED_NONE : connectionState_t
  | CONNECTED_IP : connectionState_t
  | CONNECTED_MQTT : connectionState_t
  deriving DecidableEq

/-- Embedding of `OXRS_WT32::getConnectionState` (lines 500-508): the
classification reads only the two live facts, the network link status
(`_isNetworkConnected()`) and the MQTT session status (`_mqtt.connected()`). -/
def getConnectionState (networkConnected mqttConnected : Bool) : connectionState_t :=
  if networkConnected then
    if mqttConnected then connectionState_t.CONNECTED_MQTT
    else connectionState_t.CONNECTED_IP
  else connectionState_t.CONNECTED_NONE

/-- C3: the connection-state classification as a pure function of the two
live facts: link down gives CONNECTED_NONE for either MQTT value, link up
without MQTT gives CONNECTED_IP, link up with MQTT gives CONNECTED_MQTT. -/
theorem C3_connection_state_classification :
    (∀ m : Bool, getConnectionState false m = connectionState_t.CONNECTED_NONE) ∧
    getConnectionState true false = connectionState_t.CONNECTED_IP ∧
    getConnectionState true true = connectionState_t.CONNECTED_MQTT := by
  refine ⟨fun m => ?_, rfl, rfl⟩
  cases m <;> rfl

/-- The underlying `OXRS_MQTT` publish primitives, abstracted as the success
flag each returns for a given document. -/
structure MqttPrimitives where
  publishStatusResult : Json → Bool
  publishTelemetryResult : Json → Bool

/-- Embedding of `OXRS_WT32::publishStatus` (lines 358-365), instrumented with
the number of underlying publish calls made: exit early with false when the
network link is down, else delegate and return the primitive's flag. -/
def publishStatus (networkConnected : Bool) (mqtt : MqttPrimitives) (json : Json) :
    Bool × Nat :=
  if !networkConnected then (false, 0)
  else (mqtt.publishStatusResult json, 1)

/-- Embedding of `OXRS_WT32::publishTelemetry` (lines 367-374). -/
def publishTelemetry (networkConnected : Bool) (mqtt : MqttPrimitives) (json : Json) :
    Bool × Nat :=
  if !networkConnected then (false, 0)
  else (mqtt.publishTelemetryResult json, 1)

/-- C4: for every input document, with the link down both publish helpers
return false and make no underlying publish call; with the link up they
delegate and return the primitive's success flag unchanged. -/
theorem C4_publish_fail_closed :
    ∀ (net : Bool) (mqtt : MqttPrimitives) (json : Json),
      (net = false →
        publishStatus net mqtt json = (false, 0) ∧
        publishTelemetry net mqtt json = (false, 0)) ∧
      (net = true →
        publishStatus net mqtt json = (mqtt.publishStatusResult json, 1) ∧
        publishTelemetry net mqtt json = (mqtt.publishTelemetryResult json, 1)) := by
  intro net mqtt json
  cases net <;> simp [publishStatus, publishTelemetry]

theorem C4_publish_fail_closed_witness :
    publishStatus false ⟨fun _ => true, fun _ => true⟩ Json.null = (false, 0) ∧
    publishTelemetry true ⟨fun _ => true, fun _ => true⟩ Json.null = (true, 1) :=
  ⟨((C4_publish_fail_closed false ⟨fun _ => true, fun _ => true⟩ Json.null).1 rfl).1,
   ((C4_publish_fail_closed true ⟨fun _ => true, fun _ => true⟩ Json.null).2 rfl).2⟩

/-- Embedding of `DynamicJsonDocument::clear()` on a stored schema document:
the document root becomes null. -/
def Json.docClear (_doc : Json) : Json := Json.null

/-- Embedding of `OXRS_WT32::setConfigSchema` (lines 336-340): clear the
stored `_fwConfigSchema` document, then merge the given tree into it. -/
def setConfigSchema (fwConfigSchema : Json) (json : Json) : Json :=
  mergeJson (Json.docClear fwConfigSchema) json

/-- Embedding of `OXRS_WT32::setCommandSchema` (lines 342-346). -/
def setCommandSchema (fwCommandSchema : Json) (json : Json) : Json :=
  mergeJson (Json.docClear fwCommandSchema) json

/-- C5: each schema setter clears the stored document before merging, so the
resulting stored schema depends only on the new tree and equals a merge into
an empty (null-root) document, whatever was stored before. -/
theorem C5_set_schema_clear_then_merge :
    (∀ prev prev' j : Json, setConfigSchema prev j = setConfigSchema prev' j) ∧
    (∀ prev j : Json, setConfigSchema prev j = mergeJson Json.null j) ∧
    (∀ prev prev' j : Json, setCommandSchema prev j = setCommandSchema prev' j) ∧
    (∀ prev j : Json, setCommandSchema prev j = mergeJson Json.null j) :=
  ⟨fun _ _ _ => rfl, fun _ _ => rfl, fun _ _ _ => rfl, fun _ _ => rfl⟩

/-- Embedding of `_mqttConfig` (lines 221-228): the stored firmware callback
slot is either null (`none`) or a callback mutating the firmware's state `σ`;
the wrapper's result is paired with the number of callback invocations. -/
def _mqttConfig {σ : Type} (onConfig : Option (Json → σ → σ)) (json : Json)
    (s : σ) : σ × Nat :=
  match onConfig with
  | none => (s, 0)
  | some cb => (cb json s, 1)

/-- Embedding of `_mqttCommand` (lines 230-237). -/
def _mqttCommand {σ : Type} (onCommand : Option (Json → σ → σ)) (json : Json)
    (s : σ) : σ × Nat :=
  match onCommand with
  | none => (s, 0)
  | some cb => (cb json s, 1)

/-- C9: with a null stored callback the dispatch wrappers perform no call and
leave the state unchanged; with a non-null callback they invoke it exactly
once with the parsed document. -/
theorem C9_callback_dispatch :
    ∀ (σ : Type) (json : Json) (s : σ),
      _mqttConfig (none : Option (Json → σ → σ)) json s = (s, 0) ∧
      _mqttCommand (none : Option (Json → σ → σ)) json s = (s, 0) ∧
      (∀ cb : Json → σ → σ, _mqttConfig (some cb) json s = (cb json s, 1)) ∧
      (∀ cb : Json → σ → σ, _mqttCommand (some cb) json s = (cb json s, 1)) :=
  fun _ _ _ => ⟨rfl, rfl, fun _ => rfl, fun _ => rfl⟩

/-- Six MAC bytes, as the `byte mac[6]` array the network stack fills in. -/
structure MacAddress where
  b0 : Fin 256
  b1 : Fin 256
  b2 : Fin 256
  b3 : Fin 256
  b4 : Fin 256
  b5 : Fin 256

/-- One `%X` digit: `sprintf` renders 0-9 as '0'-'9' and 10-15 as 'A'-'F'. -/
def hexDigitUpper (n : Nat) : Char :=
  if n < 10 then Char.ofNat (48 + n) else Char.ofNat (55 + n)

/-- Rendering of one byte value through `%02X` (two digits for values below
256). -/
def hex2 (b : Nat) : String :=
  String.mk [hexDigitUpper (b / 16), hexDigitUpper (b % 16)]

/-- Embedding of `OXRS_WT32::getMACAddressTxt` (lines 533-544): the six bytes
through `sprintf("%02X:%02X:%02X:%02X:%02X:%02X", ...)`. -/
def getMACAddressTxt (mac : MacAddress) : String :=
  hex2 mac.b0.val ++ ":" ++ hex2 mac.b1.val ++ ":" ++ hex2 mac.b2.val ++ ":" ++
    hex2 mac.b3.val ++ ":" ++ hex2 mac.b4.val ++ ":" ++ hex2 mac.b5.val

/-- The sixteen uppercase hexadecimal digit characters. -/
def upperHexChars : List Char :=
  ['0', '1', '2', '3', '4', '5', '6', '7', '8', '9', 'A', 'B', 'C', 'D', 'E', 'F']

/-- Numeric value of an uppercase hexadecimal digit character. -/
def hexCharVal (c : Char) : Nat :=
  if c.toNat < 58 then c.toNat - 48 else c.toNat - 55

/-- C8: the formatted MAC text is the six bytes as two-digit pairs separated
by colons, each pair made of uppercase hexadecimal digits whose combined
value decodes back to the byte; the bytes 0A:1B:2C:3D:4E:5F format exactly
so. -/
theorem C8_mac_address_format :
    (∀ mac : MacAddress, getMACAddressTxt mac =
      hex2 mac.b0.val ++ ":" ++ hex2 mac.b1.val ++ ":" ++ hex2 mac.b2.val ++ ":" ++
        hex2 mac.b3.val ++ ":" ++ hex2 mac.b4.val ++ ":" ++ hex2 mac.b5.val) ∧
    (∀ b : Fin 256,
      (hex2 b.val).length = 2 ∧
      ((hex2 b.val).data.all (fun c => upperHexChars.contains c)) = true ∧
      hexCharVal ((hex2 b.val).data.headD ' ') * 16 +
        hexCharVal ((hex2 b.val).data.getLastD ' ') = b.val) ∧
    getMACAddressTxt ⟨10, 27, 44, 61, 78, 95⟩ = "0A:1B:2C:3D:4E:5F" := by
  refine ⟨fun mac => rfl, ?_, by decide⟩
  decide

/-- Four IPv4 octets, as `IPAddress::operator[]` returns them. -/
structure IpAddress where
  o0 : Fin 256
  o1 : Fin 256
  o2 : Fin 256
  o3 : Fin 256

/-- Rendering of one octet through `%03d` (three digits for values below
1000). -/
def dec3 (n : Nat) : String :=
  String.mk [Char.ofNat (48 + n / 100), Char.ofNat (48 + n / 10 % 10),
    Char.ofNat (48 + n % 10)]

/-- Embedding of `OXRS_WT32::getIPAddressTxt` (lines 510-531): the address
starts as 0.0.0.0 and is read from the transport only when the link is up;
a zero first octet renders the placeholder, anything else renders
`%03d.%03d.%03d.%03d`. -/
def getIPAddressTxt (networkConnected : Bool) (localIP : IpAddress) : String :=
  let ip := if networkConnected then localIP else ⟨0, 0, 0, 0⟩
  if ip.o0 = (0 : Fin 256) then "---.---.---.---"
  else
    dec3 ip.o0.val ++ "." ++ dec3 ip.o1.val ++ "." ++ dec3 ip.o2.val ++ "." ++
      dec3 ip.o3.val

/-- C10: the IP text is the placeholder whenever the link is down or the
current first octet is zero; otherwise the four octets zero-padded to three
decimal digits and separated by dots, e.g. 10.1.2.3 as "010.001.002.003". -/
theorem C10_ip_address_text :
    (∀ (net : Bool) (ip : IpAddress),
      (net = false → getIPAddressTxt net ip = "---.---.---.---") ∧
      (ip.o0 = 0 → getIPAddressTxt net ip = "---.---.---.---") ∧
      (net = true → ip.o0 ≠ 0 →
        getIPAddressTxt net ip =
          dec3 ip.o0.val ++ "." ++ dec3 ip.o1.val ++ "." ++ dec3 ip.o2.val ++ "." ++
            dec3 ip.o3.val)) ∧
    getIPAddressTxt true ⟨10, 1, 2, 3⟩ = "010.001.002.003" := by
  refine ⟨fun net ip => ⟨?_, ?_, ?_⟩, by decide⟩
  · intro h; subst h; rfl
  · intro h0
    cases net
    · rfl
    · simp [getIPAddressTxt, h0]
  · intro hnet h0
    subst hnet
    simp [getIPAddressTxt, h0]

theorem C10_ip_address_text_witness :
    getIPAddressTxt false ⟨1, 2, 3, 4⟩ = "---.---.---.---" ∧
    getIPAddressTxt true ⟨0, 1, 2, 3⟩ = "---.---.---.---" ∧
    getIPAddressTxt true ⟨10, 1, 2, 3⟩ =
      dec3 (10 : Fin 256).val ++ "." ++ dec3 (1 : Fin 256).val ++ "." ++
        dec3 (2 : Fin 256).val ++ "." ++ dec3 (3 : Fin 256).val :=
  ⟨(C10_ip_address_text.1 false ⟨1, 2, 3, 4⟩).1 rfl,
   (C10_ip_address_text.1 true ⟨0, 1, 2, 3⟩).2.1 rfl,
   (C10_ip_address_text.1 true ⟨10, 1, 2, 3⟩).2.2 rfl (by decide)⟩

/-- Whether a node is the null root of an empty document
(`JsonDocument::isNull`). -/
def Json.isNull : Json → Bool
  | Json.null => true
  | _ => false

/-- Top-level member keys of an object node, in stored order. -/
def Json.keys : Json → List String
  | Json.obj fields => fields.map Prod.fst
  | _ => []

/-- Read a top-level member of an object node (null when absent). -/
def Json.getMember : Json → String → Json
  | Json.obj fields, k => getSlot fields k
  | _, _ => Json.null

/-- Member assignment on the output document (`createNestedObject` /
`operator[]=`): a null root becomes an object; an object replaces the member
in place or appends it; anything else is left unchanged. -/
def setMemberJson (doc : Json) (k : String) (v : Json) : Json :=
  match doc with
  | Json.null => Json.obj [(k, v)]
  | Json.obj fields => Json.obj (setSlot fields k v)
  | other => other

/-- The device-level facts the adoption builders read: compile-time firmware
metadata, best-effort system resource reads, network facts, the
`JSON_SCHEMA_VERSION` constant, and the two long-lived schema documents. -/
structure DeviceEnv where
  fwName : String
  fwShortName : String
  fwMaker : String
  fwVersion : String
  fwGithubUrl : Option String
  heapUsedBytes : Nat
  heapFreeBytes : Nat
  heapMaxAllocBytes : Nat
  flashChipSizeBytes : Nat
  sketchSpaceUsedBytes : Nat
  sketchSpaceTotalBytes : Nat
  fileSystemUsedBytes : Nat
  fileSystemTotalBytes : Nat
  availablePsRamBytes : Nat
  freePsRamBytes : Nat
  ethMode : Bool
  mac : MacAddress
  ipJson : Json
  jsonSchemaVersion : String
  fwConfigSchema : Json
  fwCommandSchema : Json

/-- Embedding of `_getFirmwareJson` (lines 66-78): the `githubUrl` member is
emitted only when the firmware defines `FW_GITHUB_URL`. -/
def _getFirmwareJson (env : DeviceEnv) (json : Json) : Json :=
  setMemberJson json "firmware" (Json.obj
    ([("name", Json.str env.fwName),
      ("shortName", Json.str env.fwShortName),
      ("maker", Json.str env.fwMaker),
      ("version", Json.str env.fwVersion)] ++
     (match env.fwGithubUrl with
      | some url => [("githubUrl", Json.str url)]
      | none => [])))

/-- Embedding of `_getSystemJson` (lines 80-97): ten byte-count members read
best-effort from the runtime. -/
def _getSystemJson (env : DeviceEnv) (json : Json) : Json :=
  setMemberJson json "system" (Json.obj
    [("heapUsedBytes", Json.num env.heapUsedBytes),
     ("heapFreeBytes", Json.num env.heapFreeBytes),
     ("heapMaxAllocBytes", Json.num env.heapMaxAllocBytes),
     ("flashChipSizeBytes", Json.num env.flashChipSizeBytes),
     ("sketchSpaceUsedBytes", Json.num env.sketchSpaceUsedBytes),
     ("sketchSpaceTotalBytes", Json.num env.sketchSpaceTotalBytes),
     ("fileSystemUsedBytes", Json.num env.fileSystemUsedBytes),
     ("fileSystemTotalBytes", Json.num env.fileSystemTotalBytes),
     ("availablePsRamBytes", Json.num env.availablePsRamBytes),
     ("freePsRamBytes", Json.num env.freePsRamBytes)])

/-- Embedding of `_getNetworkJson` (lines 99-120): transport mode tag, current
IP, and the MAC through the same `%02X:...` format as `getMACAddressTxt`. -/
def _getNetworkJson (env : DeviceEnv) (json : Json) : Json :=
  setMemberJson json "network" (Json.obj
    [("mode", Json.str (if env.ethMode then "ethernet" else "wifi")),
     ("ip", env.ipJson),
     ("mac", Json.str (getMACAddressTxt env.mac))])

/-- The `properties` member of the config schema envelope: a fresh empty
object that `_fwConfigSchema` is merged into when non-empty (lines 131-137). -/
def configSchemaProps (env : DeviceEnv) : Json :=
  if env.fwConfigSchema.isNull then Json.obj []
  else mergeJson (Json.obj []) env.fwConfigSchema

/-- The `properties` member of the command schema envelope (lines 149-155). -/
def commandSchemaProps (env : DeviceEnv) : Json :=
  if env.fwCommandSchema.isNull then Json.obj []
  else mergeJson (Json.obj []) env.fwCommandSchema

/-- Embedding of `_getConfigSchemaJson` (lines 122-138). -/
def _getConfigSchemaJson (env : DeviceEnv) (json : Json) : Json :=
  setMemberJson json "configSchema" (Json.obj
    [("$schema", Json.str env.jsonSchemaVersion),
     ("title", Json.str env.fwShortName),
     ("type", Json.str "object"),
     ("properties", configSchemaProps env)])

/-- Embedding of `_getCommandSchemaJson` (lines 140-156). -/
def _getCommandSchemaJson (env : DeviceEnv) (json : Json) : Json :=
  setMemberJson json "commandSchema" (Json.obj
    [("$schema", Json.str env.jsonSchemaVersion),
     ("title", Json.str env.fwShortName),
     ("type", Json.str "object"),
     ("properties", commandSchemaProps env)])

/-- Embedding of `_apiAdopt` (lines 159-167): the five builders run in fixed
order on the caller's document. -/
def _apiAdopt (env : DeviceEnv) (json : Json) : Json :=
  _getCommandSchemaJson env (_getConfigSchemaJson env
    (_getNetworkJson env (_getSystemJson env (_getFirmwareJson env json))))

/-- Modelled from the spec: `OXRS_API::getAdopt` lives in the OXRS_API
library, outside this repository; per the spec it invokes the registered
adopt callback (here `_apiAdopt`, registered at line 485) on the caller's
document and returns it. -/
def getAdopt (env : DeviceEnv) (json : Json) : Json := _apiAdopt env json

/-- Modelled from the spec: the local REST adopt route serves the document the
registered adopt callback builds on a fresh (null-root) document. -/
def restAdoptDocument (env : DeviceEnv) : Json := getAdopt env Json.null

/-- The document published on MQTT connect (`_mqttConnected`, lines 170-183):
`_api.getAdopt` applied to a fresh `DynamicJsonDocument` (null root). -/
def mqttAdoptDocument (env : DeviceEnv) : Json := getAdopt env Json.null

/-- C6: the adoption document is populated in the fixed order firmware,
system, network, configSchema, commandSchema; each schema envelope carries
$schema, title and type, and embeds the stored firmware schema under
`properties` when non-empty (an empty `properties` object otherwise); the
conditionally-compiled `githubUrl` member is emitted exactly when present. -/
theorem C6_adoption_document (env : DeviceEnv) :
    (_apiAdopt env Json.null).keys =
      ["firmware", "system", "network", "configSchema", "commandSchema"] ∧
    (env.fwGithubUrl = none →
      ((_apiAdopt env Json.null).getMember "firmware").keys =
        ["name", "shortName", "maker", "version"]) ∧
    (∀ url : String, env.fwGithubUrl = some url →
      ((_apiAdopt env Json.null).getMember "firmware").keys =
        ["name", "shortName", "maker", "version", "githubUrl"]) ∧
    (_apiAdopt env Json.null).getMember "system" = Json.obj
      [("heapUsedBytes", Json.num env.heapUsedBytes),
       ("heapFreeBytes", Json.num env.heapFreeBytes),
       ("heapMaxAllocBytes", Json.num env.heapMaxAllocBytes),
       ("flashChipSizeBytes", Json.num env.flashChipSizeBytes),
       ("sketchSpaceUsedBytes", Json.num env.sketchSpaceUsedBytes),
       ("sketchSpaceTotalBytes", Json.num env.sketchSpaceTotalBytes),
       ("fileSystemUsedBytes", Json.num env.fileSystemUsedBytes),
       ("fileSystemTotalBytes", Json.num env.fileSystemTotalBytes),
       ("availablePsRamBytes", Json.num env.availablePsRamBytes),
       ("freePsRamBytes", Json.num env.freePsRamBytes)] ∧
    (_apiAdopt env Json.null).getMember "network" = Json.obj
      [("mode", Json.str (if env.ethMode then "ethernet" else "wifi")),
       ("ip", env.ipJson),
       ("mac", Json.str (getMACAddressTxt env.mac))] ∧
    (_apiAdopt env Json.null).getMember "configSchema" = Json.obj
      [("$schema", Json.str env.jsonSchemaVersion),
       ("title", Json.str env.fwShortName),
       ("type", Json.str "object"),
       ("properties", configSchemaProps env)] ∧
    (_apiAdopt env Json.null).getMember "commandSchema" = Json.obj
      [("$schema", Json.str env.jsonSchemaVersion),
       ("title", Json.str env.fwShortName),
       ("type", Json.str "object"),
       ("properties", commandSchemaProps env)] ∧
    (env.fwConfigSchema.isNull = false →
      configSchemaProps env = mergeJson (Json.obj []) env.fwConfigSchema) ∧
    (env.fwConfigSchema.isNull = true → configSchemaProps env = Json.obj []) ∧
    (env.fwCommandSchema.isNull = false →
      commandSchemaProps env = mergeJson (Json.obj []) env.fwCommandSchema) ∧
    (env.fwCommandSchema.isNull = true → commandSchemaProps env = Json.obj []) := by
  refine ⟨?_, ?_, ?_, rfl, rfl, rfl, rfl, ?_, ?_, ?_, ?_⟩
  · cases env.fwGithubUrl <;> rfl
  · intro h
    simp only [_apiAdopt, _getFirmwareJson, _getSystemJson, _getNetworkJson,
      _getConfigSchemaJson, _getCommandSchemaJson, setMemberJson, setSlot,
      Json.getMember, getSlot, Json.keys, h]
    rfl
  · intro url h
    simp only [_apiAdopt, _getFirmwareJson, _getSystemJson, _getNetworkJson,
      _getConfigSchemaJson, _getCommandSchemaJson, setMemberJson, setSlot,
      Json.getMember, getSlot, Json.keys, h]
    rfl
  · intro h; simp [configSchemaProps, h]
  · intro h; simp [configSchemaProps, h]
  · intro h; simp [commandSchemaProps, h]
  · intro h; simp [commandSchemaProps, h]

/-- A concrete device environment used to witness C6. -/
def sampleEnv : DeviceEnv :=
  ⟨"fw-name", "fw-short", "fw-maker", "1.0.0", some "github-url",
   1, 2, 3, 4, 5, 6, 7, 8, 9, 10, true, ⟨1, 2, 3, 4, 5, 6⟩,
   Json.str "10.0.0.2", "schema-version", Json.obj [("cfg", Json.num 1)],
   Json.null⟩

theorem C6_adoption_document_witness :
    ((_apiAdopt sampleEnv Json.null).getMember "firmware").keys =
      ["name", "shortName", "maker", "version", "githubUrl"] ∧
    configSchemaProps sampleEnv = mergeJson (Json.obj []) sampleEnv.fwConfigSchema ∧
    commandSchemaProps sampleEnv = Json.obj [] :=
  ⟨(C6_adoption_document sampleEnv).2.2.1 "github-url" rfl,
   (C6_adoption_document sampleEnv).2.2.2.2.2.2.2.1 rfl,
   (C6_adoption_document sampleEnv).2.2.2.2.2.2.2.2.2.2 rfl⟩

/-- C7: adoption building is deterministic over the internal state: the
REST-served document and the on-connect MQTT-published document are built by
the same pure function on a fresh null-root document, so for one internal
state every build yields the identical tree. -/
theorem C7_adoption_determinism (env : DeviceEnv) :
    restAdoptDocument env = mqttAdoptDocument env ∧
    restAdoptDocument env = _apiAdopt env Json.null ∧
    mqttAdoptDocument env = _apiAdopt env Json.null :=
  ⟨rfl, rfl, rfl⟩

end OXRS
